import Mathlib

/-
Verification of the process-supervision and signal-forwarding core of
luavisors against its natural-language specification.

The definitions below are a shallow embedding of the Rust sources:
  src/unix.rs     signal catalog, catchable-signal derivation, raw kill
  src/process.rs  spawning, stream capture with one-shot consumption,
                  the exec accessor table and its locking discipline,
                  the signal-forwarding daemon loop
  src/init.rs     the periodic-task (every) loop

Machine integers are modelled as Int or Nat, byte buffers as lists of
bytes, fallible operations as Except, and the effects of the cooperative
scheduler as explicit state passing (guard cells, tick traces, oracles
for OS call outcomes).
-/

deriving instance DecidableEq for Except

namespace Luavisors

/-- An OS-level error value as carried by std io Error: an error kind
plus a message. -/
structure OsError where
  kind : String
  msg : String
deriving DecidableEq, Repr

/-- A Lua-side error as produced by the bindings: either a wrapped OS
error or a Lua runtime error with a message. -/
inductive LuaErr
  | fromOs (e : OsError)
  | runtime (msg : String)
deriving DecidableEq, Repr

/-- A byte buffer (Vec of u8 in the source). -/
abbrev Bytes := List Nat

/- ----------------------------------------------------------------
   src/unix.rs
   ---------------------------------------------------------------- -/

/-- The signal enumeration used by the catalog (async_signal Signal). -/
inductive Signal
  | Hup | Int | Quit | Ill | Trap | Abort | Bus | Fpe | Kill | Usr1
  | Segv | Usr2 | Pipe | Alarm | Term | Child | Cont | Stop | Tstp | Ttin
  | Ttou | Urg | Xcpu | Xfsz | Vtalarm | Prof | Winch | Io | Sys
deriving DecidableEq, Repr

/-- Table of standard signals (unix.rs, SIGNAL_TABLE): the 29 name-signal
pairs in source order. -/
def SIGNAL_TABLE : List (String × Signal) :=
  [("SIGHUP", .Hup), ("SIGINT", .Int), ("SIGQUIT", .Quit), ("SIGILL", .Ill),
   ("SIGTRAP", .Trap), ("SIGABRT", .Abort), ("SIGBUS", .Bus), ("SIGFPE", .Fpe),
   ("SIGKILL", .Kill), ("SIGUSR1", .Usr1), ("SIGSEGV", .Segv), ("SIGUSR2", .Usr2),
   ("SIGPIPE", .Pipe), ("SIGALRM", .Alarm), ("SIGTERM", .Term), ("SIGCHLD", .Child),
   ("SIGCONT", .Cont), ("SIGSTOP", .Stop), ("SIGTSTP", .Tstp), ("SIGTTIN", .Ttin),
   ("SIGTTOU", .Ttou), ("SIGURG", .Urg), ("SIGXCPU", .Xcpu), ("SIGXFSZ", .Xfsz),
   ("SIGVTALRM", .Vtalarm), ("SIGPROF", .Prof), ("SIGWINCH", .Winch),
   ("SIGIO", .Io), ("SIGSYS", .Sys)]

/-- The loop body of valid_signals (unix.rs): walk the table in order,
skipping the five signals of the exclusion match and pushing the rest. -/
def valid_signals_loop : List (String × Signal) → List Signal
  | [] => []
  | (_, s) :: rest =>
    match s with
    | .Kill | .Stop | .Ill | .Fpe | .Segv => valid_signals_loop rest
    | _ => s :: valid_signals_loop rest

/-- SIGNAL_TABLE without signals that cannot be caught (unix.rs,
valid_signals). -/
def valid_signals : List Signal := valid_signals_loop SIGNAL_TABLE

/-- The five signals named by the exclusion match arm of valid_signals. -/
def uncatchable : List Signal := [.Kill, .Stop, .Ill, .Fpe, .Segv]

/-- Send a signal to a process (unix.rs, kill). The OS call is an oracle
giving the C kill return value and the last OS error; the wrapper returns
the error exactly when the result is -1, and the result otherwise. -/
def unix_kill (os : Int → Int → Int × OsError) (pid sig : Int) : Except OsError Int :=
  let result := (os pid sig).1
  let error := (os pid sig).2
  if result = -1 then .error error else .ok result

/- ----------------------------------------------------------------
   src/process.rs: signal forwarding daemon
   ---------------------------------------------------------------- -/

/-- One run of the signal-forwarding daemon loop (process.rs,
forward_signals) over a finite prefix of the signal subscription. Each
subscription item is a Result of a received signal number; the loop body
propagates an item error, otherwise forwards the signal to the child pid
through unix_kill and propagates a delivery error. The value returned is
the list of kill attempts made, each a pid-signal pair, together with the
loop result. -/
def forward_signals (os : Int → Int → Int × OsError) (pid : Int) :
    List (Except OsError Int) → List (Int × Int) × Except OsError Unit
  | [] => ([], .ok ())
  | item :: rest =>
    match item with
    | .error e => ([], .error e)
    | .ok sig =>
      match unix_kill os pid sig with
      | .error e => ([(pid, sig)], .error e)
      | .ok _ =>
        let r := forward_signals os pid rest
        ((pid, sig) :: r.1, r.2)

/- ----------------------------------------------------------------
   src/process.rs: spawning and Lua argument flattening
   ---------------------------------------------------------------- -/

/-- Stdio configuration of one stream of a command. -/
inductive StdioCfg
  | piped
  | inheritParent
  | nullDev
deriving DecidableEq, Repr

/-- The command configuration built by spawn (process.rs, spawn): the
program, the argument list, and the three stream configurations, stdin
being an Option since the source never calls the stdin builder. -/
structure Command where
  program : String
  args : List String
  stdoutCfg : StdioCfg
  stderrCfg : StdioCfg
  stdinCfg : Option StdioCfg
deriving DecidableEq, Repr

/-- Spawn a new process (process.rs, spawn): args are appended, stdout
and stderr are set to piped, and stdin is left unconfigured. -/
def spawn (program : String) (args : List String) : Command :=
  { program := program, args := args,
    stdoutCfg := .piped, stderrCfg := .piped, stdinCfg := none }

/-- Disposition of the standard-input handle of the spawned child. -/
inductive StdinDisposition
  | closed
  | openForWriting
  | inherited
deriving DecidableEq, Repr

/-- Modelled from the spec: the process library code that realises the
stdin configuration at spawn time is not under src. Per the spec, the
standard-input handle of the child is closed immediately and never used
for writing when the source leaves stdin unconfigured, and it is open for
writing only when stdin is explicitly piped. -/
def stdinDisposition (c : Command) : StdinDisposition :=
  match c.stdinCfg with
  | none => .closed
  | some .piped => .openForWriting
  | some _ => .inherited

/-- A Lua value handed to exec as an argument, reduced to what the
flattening in lua_spawn distinguishes: a table carries its sequence part,
and any other value is a scalar carrying its string rendering. -/
inductive LArg
  | scalar (s : String)
  | table (xs : List LArg)

/-- Conversion of one Lua value to a String as performed on table
elements by sequence_values (mlua FromLua for String): succeeds on
scalars, fails on tables. -/
def argToString : LArg → Except LuaErr String
  | .scalar s => .ok s
  | .table _ => .error (.runtime "error converting Lua table to String")

/-- Collecting the sequence values of a table into strings (process.rs,
lua_spawn, the Table arm): the first conversion error aborts. -/
def sequence_values : List LArg → Except LuaErr (List String)
  | [] => .ok []
  | x :: rest =>
    match argToString x with
    | .error e => .error e
    | .ok s =>
      match sequence_values rest with
      | .error e => .error e
      | .ok r => .ok (s :: r)

/-- The argument list built by lua_spawn (process.rs): walk the
script-provided arguments in order, extending with the sequence values of
a table and pushing the string rendering of any other value. -/
def lua_spawn_args : List LArg → Except LuaErr (List String)
  | [] => .ok []
  | a :: rest =>
    match a with
    | .table xs =>
      match sequence_values xs with
      | .error e => .error e
      | .ok vs =>
        match lua_spawn_args rest with
        | .error e => .error e
        | .ok r => .ok (vs ++ r)
    | .scalar s =>
      match lua_spawn_args rest with
      | .error e => .error e
      | .ok r => .ok (s :: r)

/-- A scalar argument test. -/
def isScalar : LArg → Bool
  | .scalar _ => true
  | .table _ => false

/-- An argument the flattening contract covers: a scalar, or a sequence
all of whose elements are scalars. -/
def wellFormedArg : LArg → Bool
  | .scalar _ => true
  | .table xs => xs.all isScalar

/-- The in-order flattening of one argument: a scalar kept as one
argument, a sequence contributing its scalar elements in order. -/
def expandArg : LArg → List String
  | .scalar s => [s]
  | .table xs => xs.flatMap fun x =>
      match x with
      | .scalar s => [s]
      | .table _ => []

/- ----------------------------------------------------------------
   src/process.rs: stream capture with one-shot consumption
   ---------------------------------------------------------------- -/

/-- The eventual result of one stream capture task (process.rs,
spawn_stream_task): the io Result of draining the pipe to the end into a
byte buffer. -/
abbrev StreamTask := Except OsError Bytes

/-- The one-shot guard cell, Mutex of Option of task in the source: it
holds the not-yet-consumed capture task or nothing. -/
abbrev StreamCell := Option StreamTask

/-- Spawn a task to read from a stream (process.rs, spawn_stream_task):
an existing stream is wrapped as the capture task draining it, a missing
stream yields an empty cell. A task is modelled by its eventual result,
so the wrapping is the identity on the optional stream result. -/
def spawn_stream_task (stream : Option StreamTask) : StreamCell := stream

/-- The Lua value handed back by a stream read: nil or a string of
bytes. -/
inductive LuaValue
  | nil
  | str (data : Bytes)
deriving DecidableEq, Repr

/-- The guard take in read_stream_task (process.rs): the cell is emptied
and its previous content returned, or the already-consumed error when it
was already empty. -/
def take_stream_task : StreamCell → Except LuaErr StreamTask × StreamCell
  | none => (.error (.fromOs ⟨"InvalidInput", "stream already consumed"⟩), none)
  | some t => (.ok t, none)

/-- Awaiting the taken capture task and converting its result, the tail
of read_stream_task (process.rs): an io error propagates; empty data
becomes nil, and otherwise the raw bytes become a Lua string. -/
def await_stream_task : StreamTask → Except LuaErr LuaValue
  | .error e => .error (.fromOs e)
  | .ok data => if data = [] then .ok .nil else .ok (.str data)

/-- Read a stream into a Lua value (process.rs, read_stream_task): take
the guard first, then await the task and convert; the cell is empty
afterwards in every case. -/
def read_stream_task (c : StreamCell) : Except LuaErr LuaValue × StreamCell :=
  match take_stream_task c with
  | (.error e, cNew) => (.error e, cNew)
  | (.ok t, cNew) => (await_stream_task t, cNew)

/-- The result of read number n, counting from zero, in a sequence of
reads against the same guard cell starting from c. -/
def readNth (c : StreamCell) : Nat → Except LuaErr LuaValue
  | 0 => (read_stream_task c).1
  | n + 1 => readNth (read_stream_task c).2 n

/-- Modelled from the spec words, for comparison only: a byte is trailing
whitespace when it is a space, tab, line feed or carriage return. -/
def isWhitespaceByte (b : Nat) : Bool :=
  b = 32 || b = 9 || b = 10 || b = 13

/-- Modelled from the spec words, for comparison only: a byte buffer
trimmed of trailing whitespace. -/
def trimEnd (bs : Bytes) : Bytes :=
  (bs.reverse.dropWhile isWhitespaceByte).reverse

/- ----------------------------------------------------------------
   src/process.rs: the exec accessor table
   ---------------------------------------------------------------- -/

/-- Exit status as exposed by the process library on Unix: the delivering
signal when the process was signal-terminated, the exit code when it
exited normally. -/
structure ExitStatus where
  signal : Option Int
  code : Option Int
deriving DecidableEq, Repr

/-- The body of the status accessor (process.rs, exec): the signal if
present, else the exit code, else a runtime error. -/
def status_code (st : ExitStatus) : Except LuaErr Int :=
  match st.signal.orElse (fun _ => st.code) with
  | some c => .ok c
  | none => .error (.runtime "failed to get status code")

/-- The five operations of the accessor table returned by exec. -/
inductive HandleOp
  | pid
  | status
  | stdout
  | stderr
  | kill
deriving DecidableEq, Repr

/-- The two sides of the RwLock around the child. -/
inductive LockAcq
  | reader
  | writer
deriving DecidableEq, Repr

/-- The access each accessor acquires on the RwLock wrapped around the
child (process.rs, exec): pid awaits the read side, status and kill await
the write side, and the stream reads go through the per-stream guard cell
and never touch this lock. -/
def handleLock : HandleOp → Option LockAcq
  | .pid => some .reader
  | .status => some .writer
  | .kill => some .writer
  | .stdout => none
  | .stderr => none

/-- RwLock admission: two acquisitions can be held at the same time
unless one of them is the writer side while the other also needs the
lock. -/
def rwCompatible : Option LockAcq → Option LockAcq → Bool
  | some .writer, some _ => false
  | some _, some .writer => false
  | _, _ => true

/-- Two accessor operations can be in flight at the same time exactly
when their lock requirements are compatible. -/
def mayRunConcurrently (a b : HandleOp) : Bool :=
  rwCompatible (handleLock a) (handleLock b)

/- ----------------------------------------------------------------
   src/init.rs: the every loop
   ---------------------------------------------------------------- -/

/-- What the every loop observes at one timer tick: whether the weak Lua
reference still upgrades, and whether the scheduled call would succeed if
made at this tick. -/
structure Tick where
  hostAlive : Bool
  callOk : Bool
deriving DecidableEq, Repr

/-- An observable event of the every loop: one invocation of the callable
with its outcome, or the loop stopping at the liveness check. -/
inductive EveryEvent
  | invoked (ok : Bool)
  | stopped
deriving DecidableEq, Repr

/-- The body of the detached task spawned by every (init.rs, every) over
a finite prefix of timer ticks: at each tick the weak reference is
checked first and the loop breaks when the upgrade fails; otherwise the
callable is invoked, a failure being only logged before the loop
continues. -/
def everyLoop : List Tick → List EveryEvent
  | [] => []
  | t :: rest =>
    if t.hostAlive then EveryEvent.invoked t.callOk :: everyLoop rest
    else [EveryEvent.stopped]

/- ----------------------------------------------------------------
   Theorems
   ---------------------------------------------------------------- -/

/-- An empty guard cell stays empty and every read against it fails with
the already-consumed error. -/
theorem readNth_of_none (n : Nat) :
    readNth none n
      = .error (.fromOs ⟨"InvalidInput", "stream already consumed"⟩) := by
  induction n with
  | zero => rfl
  | succ n ih =>
    simpa [readNth, read_stream_task, take_stream_task] using ih

/-- After any read, successful or not, the guard cell is empty. -/
theorem read_stream_task_clears (c : StreamCell) :
    (read_stream_task c).2 = none := by
  rcases c with _ | t
  · rfl
  · rcases t with e | data <;> rfl

/-- C1: for a captured stream, the first read returns the collected
bytes, nil when the stream produced none, and every later read in the
sequence fails with the already-consumed error, whatever the outcome of
the capture task was. -/
theorem stream_first_read_then_consumed (data : Bytes) (r : StreamTask) (n : Nat) :
    readNth (spawn_stream_task (some (.ok data))) 0
      = .ok (if data = [] then LuaValue.nil else LuaValue.str data)
    ∧ readNth (spawn_stream_task (some r)) (n + 1)
      = .error (.fromOs ⟨"InvalidInput", "stream already consumed"⟩) := by
  constructor
  · rcases data with _ | ⟨b, bs⟩ <;>
      simp [readNth, read_stream_task, take_stream_task, await_stream_task,
        spawn_stream_task]
  · have h2 : (read_stream_task (spawn_stream_task (some r))).2 = none :=
      read_stream_task_clears _
    calc readNth (spawn_stream_task (some r)) (n + 1)
        = readNth (read_stream_task (spawn_stream_task (some r))).2 n := rfl
      _ = readNth none n := by rw [h2]
      _ = .error (.fromOs ⟨"InvalidInput", "stream already consumed"⟩) :=
          readNth_of_none n

/-- C10: a first read whose capture task failed returns the io error and
delivers no bytes, yet still consumes the one-shot guard before awaiting:
the cell is empty afterwards and every later read fails with the
already-consumed error. -/
theorem stream_read_consumes_on_error (e : OsError) (n : Nat) :
    (read_stream_task (some (.error e))).1 = .error (.fromOs e)
    ∧ (read_stream_task (some (.error e))).2 = none
    ∧ readNth (some (Except.error e)) (n + 1)
      = .error (.fromOs ⟨"InvalidInput", "stream already consumed"⟩) := by
  refine ⟨rfl, rfl, ?_⟩
  calc readNth (some (Except.error e)) (n + 1)
      = readNth (read_stream_task (some (.error e))).2 n := rfl
    _ = readNth none n := by rw [read_stream_task_clears]
    _ = .error (.fromOs ⟨"InvalidInput", "stream already consumed"⟩) :=
        readNth_of_none n

/-- C2 counterexample: the buffer handed to the caller is not trimmed of
trailing whitespace: for the captured bytes of the text hi followed by a
line feed, the read returns the raw three bytes, not the two bytes left
by trimming. -/
theorem stream_read_untrimmed_cex :
    (read_stream_task (some (.ok [104, 105, 10]))).1
      ≠ .ok (LuaValue.str (trimEnd [104, 105, 10])) := by decide

/-- C2 amended: the first successful read returns the fully drained pipe
contents unmodified, with no trimming of trailing whitespace; nil is
returned only when the buffer is entirely empty. -/
theorem stream_read_returns_raw (data : Bytes) (h : data ≠ []) :
    (read_stream_task (some (.ok data))).1 = .ok (.str data) := by
  rcases data with _ | ⟨b, bs⟩
  · exact absurd rfl h
  · rfl

/-- Witness for stream_read_returns_raw at a concrete buffer. -/
theorem stream_read_returns_raw_witness :
    (read_stream_task (some (.ok [104, 105, 10]))).1
      = .ok (.str [104, 105, 10]) :=
  stream_read_returns_raw [104, 105, 10] (by decide)

/-- A kill oracle under which every delivery fails, as for a target pid
that no longer exists: the C call returns -1 with the no-such-process OS
error. -/
def deadPidOS : Int → Int → Int × OsError :=
  fun _ _ => (-1, ⟨"Uncategorized", "No such process"⟩)

/-- C3 counterexample: with a target pid to which no delivery succeeds,
the forwarding daemon attempts the first pending signal, stops with the
delivery error, and never attempts the second pending signal, although
the subscription neither erred nor ended. -/
theorem forward_signals_fatal_cex :
    forward_signals deadPidOS 100 [.ok 15, .ok 2]
      = ([(100, 15)], .error ⟨"Uncategorized", "No such process"⟩)
    ∧ (100, 2) ∉ (forward_signals deadPidOS 100 [.ok 15, .ok 2]).1 := by
  decide

/-- C3 amended: a failed signal delivery is fatal to the forwarding
daemon: the loop makes that one delivery attempt, propagates the delivery
error and stops, processing none of the signals still pending in the
subscription. -/
theorem forward_signals_stop_on_kill_error (os : Int → Int → Int × OsError)
    (pid sig : Int) (e : OsError) (rest : List (Except OsError Int))
    (h : unix_kill os pid sig = .error e) :
    forward_signals os pid (.ok sig :: rest) = ([(pid, sig)], .error e) := by
  simp [forward_signals, h]

/-- Witness for forward_signals_stop_on_kill_error at the dead-pid
oracle with one signal still pending. -/
theorem forward_signals_stop_on_kill_error_witness :
    forward_signals deadPidOS 77 [.ok 1, .ok 9]
      = ([(77, 1)], .error ⟨"Uncategorized", "No such process"⟩) :=
  forward_signals_stop_on_kill_error deadPidOS 77 1
    ⟨"Uncategorized", "No such process"⟩ [.ok 9] (by decide)

/-- C4: the derived catchable-signal list is the catalog minus exactly
the five uncatchable signals: its length is the catalog length minus
five, none of the five appears in it, and every other catalog signal
does. -/
theorem valid_signals_exclude_uncatchable :
    valid_signals.length = SIGNAL_TABLE.length - 5
    ∧ uncatchable.length = 5
    ∧ (∀ s ∈ uncatchable, s ∉ valid_signals)
    ∧ (∀ s ∈ SIGNAL_TABLE.map Prod.snd, s ∉ uncatchable → s ∈ valid_signals)
    ∧ (∀ s ∈ valid_signals, s ∈ SIGNAL_TABLE.map Prod.snd) := by
  decide

/-- C5: status returns the delivering signal number when the process was
signal-terminated, otherwise the normal exit code, and fails exactly when
neither is available. -/
theorem status_code_signal_else_code (st : ExitStatus) :
    (∀ s, st.signal = some s → status_code st = .ok s)
    ∧ (st.signal = none → ∀ c, st.code = some c → status_code st = .ok c)
    ∧ (status_code st = .error (.runtime "failed to get status code")
        ↔ st.signal = none ∧ st.code = none) := by
  obtain ⟨sig, code⟩ := st
  rcases sig with _ | s <;> rcases code with _ | c <;>
    simp [status_code, Option.orElse]

/-- Collecting sequence values of a table of scalars yields exactly its
scalar renderings in order. -/
theorem sequence_values_of_scalars (xs : List LArg) (h : xs.all isScalar = true) :
    sequence_values xs
      = .ok (xs.flatMap fun x =>
          match x with
          | .scalar s => [s]
          | .table _ => []) := by
  induction xs with
  | nil => rfl
  | cons x rest ih =>
    rcases x with s | ys
    · simp only [List.all_cons, Bool.and_eq_true] at h
      simp [sequence_values, argToString, ih h.2]
    · simp [List.all_cons, isScalar] at h

/-- C6: when each script-provided argument is a scalar or a sequence of
scalars, the argument list built by lua_spawn is exactly the in-order
flattening: each scalar kept as one argument, each sequence contributing
its elements in order. -/
theorem lua_spawn_args_flatten (args : List LArg)
    (h : args.all wellFormedArg = true) :
    lua_spawn_args args = .ok (args.flatMap expandArg) := by
  induction args with
  | nil => rfl
  | cons a rest ih =>
    simp only [List.all_cons, Bool.and_eq_true] at h
    rcases a with s | xs
    · simp [lua_spawn_args, ih h.2, expandArg]
    · have hxs : xs.all isScalar = true := h.1
      simp [lua_spawn_args, sequence_values_of_scalars xs hxs, ih h.2, expandArg]

/-- Witness for lua_spawn_args_flatten at a concrete argument list with
a scalar, a sequence of two scalars and a trailing scalar. -/
theorem lua_spawn_args_flatten_witness :
    lua_spawn_args
        [.scalar "-v", .table [.scalar "a", .scalar "b"], .scalar "c"]
      = .ok ["-v", "a", "b", "c"] :=
  lua_spawn_args_flatten
    [.scalar "-v", .table [.scalar "a", .scalar "b"], .scalar "c"] (by rfl)

/-- C7: over any finite prefix of timer ticks, the every loop invokes
the callable once for each tick of the longest prefix in which the host
is still alive, irrespective of invocation failures, and stops exactly at
the first tick at which the weak reference fails to upgrade. -/
theorem everyLoop_self_healing (ts : List Tick) :
    everyLoop ts
      = (ts.takeWhile (fun t => t.hostAlive)).map
          (fun t => EveryEvent.invoked t.callOk)
        ++ (if ts.dropWhile (fun t => t.hostAlive) = [] then []
            else [EveryEvent.stopped]) := by
  induction ts with
  | nil => rfl
  | cons t rest ih =>
    by_cases h : t.hostAlive
    · simp [everyLoop, List.takeWhile_cons, List.dropWhile_cons, h, ih]
    · simp [everyLoop, List.takeWhile_cons, List.dropWhile_cons, h]

/-- C8: spawn pipes both stdout and stderr, configures no stdin, and the
resulting stdin disposition of the child is closed, never open for
writing. -/
theorem spawn_pipes_outputs_no_stdin (program : String) (args : List String) :
    (spawn program args).stdoutCfg = .piped
    ∧ (spawn program args).stderrCfg = .piped
    ∧ (spawn program args).stdinCfg = none
    ∧ stdinDisposition (spawn program args) = .closed :=
  ⟨rfl, rfl, rfl, rfl⟩

/-- C9 counterexample: a pid read does block on an in-flight exclusive
operation: pid awaits the reader side of the very RwLock whose writer
side status holds across the wait for process exit, so the two cannot be
in flight together. -/
theorem pid_blocks_on_status_cex :
    ¬ mayRunConcurrently HandleOp.pid HandleOp.status = true := by decide

/-- C9 amended: kill and status fully serialize with each other and with
themselves; pid readers run concurrently with one another but serialize
with an in-flight kill or status; stdout and stderr reads acquire nothing
on the handle lock and so run concurrently with every operation. -/
theorem handle_lock_discipline :
    mayRunConcurrently .kill .status = false
    ∧ mayRunConcurrently .status .kill = false
    ∧ mayRunConcurrently .kill .kill = false
    ∧ mayRunConcurrently .status .status = false
    ∧ mayRunConcurrently .pid .pid = true
    ∧ mayRunConcurrently .pid .status = false
    ∧ mayRunConcurrently .pid .kill = false
    ∧ (∀ s ∈ [HandleOp.stdout, HandleOp.stderr],
        ∀ o ∈ [HandleOp.pid, HandleOp.status, HandleOp.stdout,
               HandleOp.stderr, HandleOp.kill],
          mayRunConcurrently s o = true ∧ mayRunConcurrently o s = true)
    ∧ handleLock .stdout = none
    ∧ handleLock .stderr = none := by decide

end Luavisors
